import Mathlib

/-
Verification of the Buffer state machine of ced (src/buffer.cc) against its
specification.  The C++ code is shallowly embedded: each Buffer member
function becomes a Lean function on an explicit `BufferState` record; the
interleaving points of the concurrent code (the debounce waits of
`NextNotification`) are made explicit by passing in a list of environment
events describing what the rest of the system did during each wait.
Timestamps (absl::Time) and durations (absl::Duration) are modelled as
integers counting whole seconds.
-/

/-- Modelled from the spec: the document algebra (`AnnotatedString` and
`CommandSet`, external to this repository) is opaque to the buffer core; it
is consumed only through `Integrate` and an emptiness test.  Commands are
modelled as natural numbers, a `CommandSet` as a list of commands, a
document snapshot as the log of commands integrated into it, and
`Integrate` as appending the integrated commands, so that integrating an
empty `CommandSet` leaves the snapshot unchanged. -/
def Integrate (content : List Nat) (commands : List Nat) : List Nat :=
  content ++ commands

/-- `EditNotification` (buffer.h, described in spec section 3): the committed
buffer state handed to collaborators. -/
structure EditNotification where
  content : List Nat
  fully_loaded : Bool
  referenced_file_version : Nat
  shutdown : Bool
deriving DecidableEq, Repr

/-- `EditResponse` (buffer.h, described in spec section 3): a collaborator's
reply. -/
structure EditResponse where
  content_updates : List Nat
  become_used : Bool
  become_loaded : Bool
  referenced_file_changed : Bool
  done : Bool
deriving DecidableEq, Repr

/-- The fields of `Buffer` protected by `mu_` (buffer.h / buffer.cc).
Collaborators and listeners are identified by natural numbers; the
per-collaborator timestamps kept by `MarkChange` / `MarkResponse` /
`MarkRequest` are modelled as maps from collaborator id to timestamp. -/
structure BufferState where
  state : EditNotification
  version : Nat
  updating : Bool
  last_used : Int
  collaborators : Finset Nat
  done_collaborators : Finset Nat
  declared_no_edit_collaborators : Finset Nat
  listeners : List Nat
  last_change : Nat → Int
  last_response : Nat → Int
  last_request : Nat → Int

/-- Observable events emitted by the buffer, used to state ordering
properties: a `publish` records a `PublishToListeners` call (with the
listeners registered at that moment), a `commit` records the instant
`state_` is replaced inside `UpdateState`. -/
inductive BufEvent where
  | publish (commands : List Nat) (listeners : List Nat)
  | commit (version : Nat) (state : EditNotification)
deriving DecidableEq, Repr

/-- `Collaborator::MarkChange` called from `UpdateState` (buffer.cc:222):
records the time of the last change for the given collaborator, when one is
given. -/
def markChange (b : BufferState) (c : Option Nat) (now : Int) : BufferState :=
  match c with
  | none => b
  | some i => { b with last_change := fun j => if j = i then now else b.last_change j }

/-- `Collaborator::MarkResponse` called from `SinkResponse` (buffer.cc:257). -/
def markResponse (b : BufferState) (c : Nat) (now : Int) : BufferState :=
  { b with last_response := fun j => if j = c then now else b.last_response j }

/-- `Collaborator::MarkRequest` called from `NextNotification` (buffer.cc:190). -/
def markRequest (b : BufferState) (c : Nat) (now : Int) : BufferState :=
  { b with last_request := fun j => if j = c then now else b.last_request j }

/-- First half of `Buffer::UpdateState` (buffer.cc:220-225): after the
`LockWhen` wait for `!updating_` has succeeded, mark the change on the
collaborator, set `updating_ = true` and copy `state_` out; the copy is the
second component. -/
def updateAcquire (b : BufferState) (c : Option Nat) (now : Int) :
    BufferState × EditNotification :=
  ({ markChange b c now with updating := true }, b.state)

/-- Second half of `Buffer::UpdateState` (buffer.cc:230-238): re-acquire the
lock and commit the mutated copy `s`: clear `updating_`, increment
`version_`, snapshot `declared_no_edit_collaborators_ := done_collaborators_`,
replace `state_`, and set `last_used_` to now when `become_used`. -/
def updateCommit (b : BufferState) (become_used : Bool) (s : EditNotification)
    (now : Int) : BufferState :=
  { b with
    updating := false
    version := b.version + 1
    declared_no_edit_collaborators := b.done_collaborators
    state := s
    last_used := if become_used then now else b.last_used }

/-- `Buffer::UpdateState` (buffer.cc:213-239): acquire the write lease, apply
the mutator `f` to the copied state outside the lock, then commit.  Returns
the new buffer state together with the trace of events (the commit). -/
def UpdateState (b : BufferState) (c : Option Nat) (become_used : Bool)
    (f : EditNotification → EditNotification) (now : Int) :
    BufferState × List BufEvent :=
  let a := updateAcquire b c now
  let b2 := updateCommit a.1 become_used (f a.2) now
  (b2, [BufEvent.commit b2.version b2.state])

/-- `Buffer::PushChanges` (buffer.cc:241-246): publish the commands to all
listeners, then commit an integrate of those commands via `UpdateState`. -/
def PushChanges (b : BufferState) (commands : List Nat) (now : Int) :
    BufferState × List BufEvent :=
  let u := UpdateState b none false
    (fun s => { s with content := Integrate s.content commands }) now
  (u.1, BufEvent.publish commands b.listeners :: u.2)

/-- `HasUpdates` (buffer.cc:202-205). -/
def HasUpdates (response : EditResponse) : Bool :=
  response.become_loaded || response.referenced_file_changed ||
    !response.content_updates.isEmpty

/-- `IntegrateResponse` (buffer.cc:207-211). -/
def IntegrateResponse (response : EditResponse) (s : EditNotification) :
    EditNotification :=
  { s with
    content := Integrate s.content response.content_updates
    fully_loaded := if response.become_loaded then true else s.fully_loaded
    referenced_file_version :=
      if response.referenced_file_changed then s.referenced_file_version + 1
      else s.referenced_file_version }

/-- Result of `Buffer::SinkResponse`: the buffer state afterwards, the events
emitted, and whether the terminal condition (`throw Shutdown()`) was
raised. -/
structure SinkResult where
  buffer : BufferState
  events : List BufEvent
  raised : Bool

/-- `Buffer::SinkResponse` (buffer.cc:253-281): mark the response; if the
response has updates, publish the commands to listeners and commit them via
`UpdateState`, else only bump `last_used` (when `become_used`) and insert
the collaborator directly into `declared_no_edit_collaborators_`; finally,
if `response.done`, insert the collaborator into `done_collaborators_` and
raise the terminal condition. -/
def SinkResponse (b : BufferState) (c : Nat) (response : EditResponse)
    (now : Int) : SinkResult :=
  let b0 := markResponse b c now
  let step : BufferState × List BufEvent :=
    if HasUpdates response then
      let u := UpdateState b0 (some c) response.become_used
        (fun s => IntegrateResponse response s) now
      (u.1, BufEvent.publish response.content_updates b0.listeners :: u.2)
    else
      ({ b0 with
          last_used := if response.become_used then now else b0.last_used
          declared_no_edit_collaborators :=
            insert c b0.declared_no_edit_collaborators }, [])
  if response.done then
    { buffer := { step.1 with
        done_collaborators := insert c step.1.done_collaborators }
      events := step.2
      raised := true }
  else
    { buffer := step.1, events := step.2, raised := false }

/-- The `all_edits_complete` lambda of `Buffer::NextNotification`
(buffer.cc:156-160): note that the source compares the SIZES of
`declared_no_edit_collaborators_` and `collaborators_`, not the sets
themselves. -/
def all_edits_complete (b : BufferState) : Bool :=
  b.state.shutdown &&
    (b.declared_no_edit_collaborators.card == b.collaborators.card)

/-- The `processable` lambda of `Buffer::NextNotification`
(buffer.cc:161-164). -/
def processable (b : BufferState) (last_processed : Nat) : Bool :=
  (b.version != last_processed) || all_edits_complete b

/-- The timeout handed to `AwaitWithTimeout` in the debounce loop
(buffer.cc:181-183), clamped at zero since a nonpositive timeout makes the
await return immediately. -/
def debounceWait (d_i d_s idle_time time_from_change : Int) : Int :=
  max (max (d_i - idle_time) (d_s - time_from_change)) 0

/-- One interleaving point of the debounce loop: while `AwaitWithTimeout`
sleeps, other threads may mutate the buffer.  `after` is the buffer state
when the await returns; per the semantics of `AwaitWithTimeout` on the
condition `&state_.shutdown`, the await returns true exactly when
`after.state.shutdown` is true, and then `delta` is how long it slept before
the condition fired (at most the timeout). -/
structure DebounceEvent where
  delta : Int
  after : BufferState

/-- Outcome of the debounce do-while loop of `Buffer::NextNotification`
(buffer.cc:170-186): `notified t b` means the loop exited normally at time
`t` with buffer state `b` (timeout elapsed with `last_used_` unchanged);
`shutdownBreak t b` means `AwaitWithTimeout` observed `state_.shutdown` and
the loop broke out at time `t`; `outOfFuel` means the supplied event list
ended before the loop did. -/
inductive DebounceOutcome where
  | notified (t : Int) (b : BufferState)
  | shutdownBreak (t : Int) (b : BufferState)
  | outOfFuel

/-- The debounce do-while loop of `Buffer::NextNotification`
(buffer.cc:170-186).  `time` is the current time, `lu` the value of
`last_used_` read at the start of the iteration (`last_used_at_start`).
Each iteration computes the idle time and the time from change, waits
`debounceWait` of them, and then either breaks (shutdown fired during the
wait), re-runs (the `last_used_` it re-reads changed during the wait), or
exits normally. -/
def debounceLoop (d_i d_s first_saw_change : Int) :
    Int → Int → List DebounceEvent → DebounceOutcome
  | _, _, [] => DebounceOutcome.outOfFuel
  | time, lu, e :: rest =>
    let w := debounceWait d_i d_s (time - lu) (time - first_saw_change)
    if e.after.state.shutdown then
      DebounceOutcome.shutdownBreak (time + min (max e.delta 0) w) e.after
    else if e.after.last_used ≠ lu then
      debounceLoop d_i d_s first_saw_change (time + w) e.after.last_used rest
    else
      DebounceOutcome.notified (time + w) e.after

/-- Outcome of `Buffer::NextNotification`: either a returned notification
(with the new value of `*last_processed`, the buffer state after
`MarkRequest`, and the return time), or the terminal condition
(`throw Shutdown()`) with the buffer state at the throw. -/
inductive NotifOutcome where
  | notification (n : EditNotification) (newLast : Nat) (b : BufferState) (t : Int)
  | terminal (b : BufferState)
  | outOfFuel
deriving Inhabited

/-- The return path of `Buffer::NextNotification` (buffer.cc:188-193):
`*last_processed = version_`, copy `state_` out, `MarkRequest`, unlock and
return the notification at time `t`. -/
def notifReturn (b : BufferState) (c : Nat) (t : Int) : NotifOutcome :=
  NotifOutcome.notification b.state b.version (markRequest b c t) t

/-- The terminal branch of `Buffer::NextNotification` (buffer.cc:195-198):
insert the collaborator into `done_collaborators_` and throw `Shutdown`. -/
def notifTerminalBranch (b : BufferState) (c : Nat) : BufferState :=
  { b with done_collaborators := insert c b.done_collaborators }

/-- `Buffer::NextNotification` (buffer.cc:154-200), entered once the
`LockWhen` wait on `processable` has succeeded, at time `now` (which is also
`first_saw_change`).  `d_i` and `d_s` are the collaborator's
`push_delay_from_idle` and `push_delay_from_start`; `events` supplies the
environment behaviour at each debounce wait.  If `version_` differs from
`*last_processed` the debounce runs — skipped entirely when `state_.shutdown`
already holds, and reduced to a single waitless iteration when
`*last_processed == 0` (the `*last_processed != 0 &&` short-circuit at
buffer.cc:178, with the lock held no state can change, so the do-while exits
at once) — and the notification is returned; otherwise the terminal branch
runs. -/
def NextNotification (b : BufferState) (c : Nat) (last_processed : Nat)
    (now d_i d_s : Int) (events : List DebounceEvent) : NotifOutcome :=
  if b.version ≠ last_processed then
    if b.state.shutdown then notifReturn b c now
    else if last_processed = 0 then notifReturn b c now
    else
      match debounceLoop d_i d_s now now b.last_used events with
      | DebounceOutcome.notified t b2 => notifReturn b2 c t
      | DebounceOutcome.shutdownBreak t b2 => notifReturn b2 c t
      | DebounceOutcome.outOfFuel => NotifOutcome.outOfFuel
  else
    NotifOutcome.terminal (notifTerminalBranch b c)

/-- How a driver task came to exit its loop: via the terminal condition
(`Shutdown` thrown and caught) or because the collaborator raised an
error (a `std::exception` caught by the thread body). -/
inductive ExitCause where
  | terminal
  | collaboratorError
deriving DecidableEq, Repr

/-- Exit path of the pull driver thread of
`Buffer::AddCollaborator(AsyncCollaboratorPtr&&)` (buffer.cc:79-87): whether
`RunPull` returned (after catching `Shutdown`) or an exception was caught,
the thread body then inserts the collaborator into `done_collaborators_`
under the lock.  `b` is the buffer state when the loop ended. -/
def pullDriverExit (b : BufferState) (c : Nat) (_cause : ExitCause) :
    BufferState :=
  { b with done_collaborators := insert c b.done_collaborators }

/-- Exit path of the push driver thread of
`Buffer::AddCollaborator(AsyncCollaboratorPtr&&)` (buffer.cc:88-94): on the
terminal exit, the `Shutdown` caught by `RunPush` was thrown by the terminal
branch of `NextNotification`, which inserted the collaborator into
`done_collaborators_` (buffer.cc:196) just before throwing; on a
collaborator error, the exception is logged and the thread body ends
WITHOUT touching `done_collaborators_`.  `b` is the buffer state when the
loop ended (for the terminal case, just before the terminal branch ran). -/
def pushDriverExit (b : BufferState) (c : Nat) : ExitCause → BufferState
  | ExitCause.terminal => notifTerminalBranch b c
  | ExitCause.collaboratorError => b

/-- Exit path of the sync driver thread of
`Buffer::AddCollaborator(SyncCollaboratorPtr&&)` (buffer.cc:139-147): in
every case the thread body ends by inserting the collaborator into
`done_collaborators_` under the lock (buffer.cc:145-146). -/
def syncDriverExit (b : BufferState) (c : Nat) (_cause : ExitCause) :
    BufferState :=
  { b with done_collaborators := insert c b.done_collaborators }

/-- Exit path of the command-push driver thread of
`Buffer::AddCollaborator(AsyncCommandCollaboratorPtr&&)` (buffer.cc:112-132):
whether the loop ended by observing `state.shutdown` or an exception was
caught, the thread body ends by inserting the collaborator into
`done_collaborators_` under the lock (buffer.cc:130-131). -/
def commandDriverExit (b : BufferState) (c : Nat) (_cause : ExitCause) :
    BufferState :=
  { b with done_collaborators := insert c b.done_collaborators }

/-- The membership bookkeeping of every `Buffer::AddCollaborator` overload
(buffer.cc:78, 111, 138): the new collaborator joins `collaborators_`. -/
def AddCollaborator (b : BufferState) (c : Nat) : BufferState :=
  { b with collaborators := insert c b.collaborators }

/-- `Buffer::Buffer` (buffer.cc:42-57): `version_` starts at 0, `updating_`
false, `last_used_` is initialised to `absl::Now() - absl::Seconds(1000000)`,
`state_.content` to the initial string when one is given, and every registry
starts empty.  The default values of the remaining `EditNotification`
fields come from buffer.h (not under src/), modelled from the spec:
`fully_loaded` false, `referenced_file_version` 0, `shutdown` false. -/
def Buffer.init (now : Int) (initial : Option (List Nat)) : BufferState :=
  { state :=
      { content := initial.getD []
        fully_loaded := false
        referenced_file_version := 0
        shutdown := false }
    version := 0
    updating := false
    last_used := now - 1000000
    collaborators := ∅
    done_collaborators := ∅
    declared_no_edit_collaborators := ∅
    listeners := []
    last_change := fun _ => 0
    last_response := fun _ => 0
    last_request := fun _ => 0 }

/-- The four mutators the core passes to `UpdateState`: the
`IntegrateResponse` closure of `SinkResponse` (buffer.cc:262-266), the
integrate closure of `PushChanges` (buffer.cc:243-245), the integrate
closure of the command-push driver (buffer.cc:121-125, which additionally
reads `state.shutdown` into its loop flag but writes only `content`), and
the shutdown closure of `Buffer::~Buffer` (buffer.cc:67-68). -/
inductive CoreMutator where
  | integrateResponse (response : EditResponse)
  | pushCommands (commands : List Nat)
  | commandPush (commands : List Nat)
  | shutdownCommit

/-- The state transformation each core mutator performs, read off the
respective closure bodies in buffer.cc. -/
def CoreMutator.apply : CoreMutator → EditNotification → EditNotification
  | CoreMutator.integrateResponse r, s => IntegrateResponse r s
  | CoreMutator.pushCommands cmds, s =>
      { s with content := Integrate s.content cmds }
  | CoreMutator.commandPush cmds, s =>
      { s with content := Integrate s.content cmds }
  | CoreMutator.shutdownCommit, s => { s with shutdown := true }

/-- The shutdown commit run by `Buffer::~Buffer` (buffer.cc:67-68). -/
def Buffer.destroyCommit (b : BufferState) (now : Int) :
    BufferState × List BufEvent :=
  UpdateState b none false (CoreMutator.apply CoreMutator.shutdownCommit) now

/-- One entry of a sequence of commits: the arguments of one `UpdateState`
call. -/
structure CommitSpec where
  collab : Option Nat
  become_used : Bool
  mutator : EditNotification → EditNotification
  now : Int

/-- A sequence of `UpdateState` commits applied in order. -/
def commitSeq (b : BufferState) : List CommitSpec → BufferState
  | [] => b
  | s :: rest => commitSeq (UpdateState b s.collab s.become_used s.mutator s.now).1 rest

/-- The containment bookkeeping invariant of the collaborator registries:
both `done_collaborators_` and `declared_no_edit_collaborators_` only ever
hold collaborators that are in `collaborators_`. -/
def collabInv (b : BufferState) : Prop :=
  b.done_collaborators ⊆ b.collaborators ∧
    b.declared_no_edit_collaborators ⊆ b.collaborators

/- Projection lemmas for the bookkeeping helpers. -/

theorem markChange_version (b : BufferState) (c : Option Nat) (now : Int) :
    (markChange b c now).version = b.version := by
  cases c <;> rfl

theorem markChange_state (b : BufferState) (c : Option Nat) (now : Int) :
    (markChange b c now).state = b.state := by
  cases c <;> rfl

theorem markChange_last_used (b : BufferState) (c : Option Nat) (now : Int) :
    (markChange b c now).last_used = b.last_used := by
  cases c <;> rfl

theorem markChange_done (b : BufferState) (c : Option Nat) (now : Int) :
    (markChange b c now).done_collaborators = b.done_collaborators := by
  cases c <;> rfl

theorem markChange_declared (b : BufferState) (c : Option Nat) (now : Int) :
    (markChange b c now).declared_no_edit_collaborators
      = b.declared_no_edit_collaborators := by
  cases c <;> rfl

theorem markChange_collaborators (b : BufferState) (c : Option Nat) (now : Int) :
    (markChange b c now).collaborators = b.collaborators := by
  cases c <;> rfl

theorem markChange_listeners (b : BufferState) (c : Option Nat) (now : Int) :
    (markChange b c now).listeners = b.listeners := by
  cases c <;> rfl

/-- C1: `UpdateState`, the single write path, entered once the wait for
`updating_ == false` has succeeded, first sets `updating` true and copies
the state out (the acquire phase), applies the mutator `f` to that copy, and
commits by clearing `updating`, incrementing `version` by exactly 1,
assigning `declared_no_edit_collaborators` the current value of
`done_collaborators`, replacing `state` with the mutated copy, and setting
`last_used` to now exactly when `become_used` is true; the collaborator
registries themselves are untouched. -/
theorem c1_update_state_contract (b : BufferState) (c : Option Nat)
    (u : Bool) (f : EditNotification → EditNotification) (now : Int)
    (_h : b.updating = false) :
    (updateAcquire b c now).1.updating = true ∧
    (updateAcquire b c now).2 = b.state ∧
    (UpdateState b c u f now).1.updating = false ∧
    (UpdateState b c u f now).1.version = b.version + 1 ∧
    (UpdateState b c u f now).1.declared_no_edit_collaborators
      = b.done_collaborators ∧
    (UpdateState b c u f now).1.state = f b.state ∧
    (UpdateState b c u f now).1.last_used
      = (if u then now else b.last_used) ∧
    (UpdateState b c u f now).1.done_collaborators = b.done_collaborators ∧
    (UpdateState b c u f now).1.collaborators = b.collaborators ∧
    (UpdateState b c u f now).1.listeners = b.listeners := by
  refine ⟨rfl, rfl, rfl, ?_, ?_, rfl, ?_, ?_, ?_, ?_⟩ <;>
    simp [UpdateState, updateCommit, updateAcquire, markChange_version,
      markChange_done, markChange_declared, markChange_collaborators,
      markChange_last_used, markChange_listeners]

theorem c1_update_state_contract_witness :
    (Buffer.init 0 none).updating = false ∧
    (UpdateState (Buffer.init 0 none) none true id 7).1.version
      = (Buffer.init 0 none).version + 1 ∧
    (UpdateState (Buffer.init 0 none) none true id 7).1.last_used = 7 :=
  ⟨rfl,
   (c1_update_state_contract (Buffer.init 0 none) none true id 7 rfl).2.2.2.1,
   by
     have h :=
       (c1_update_state_contract (Buffer.init 0 none) none true id 7
         rfl).2.2.2.2.2.2.1
     simpa using h⟩

/-- A concrete buffer state probing the quiescence gate: shutdown has been
committed, one collaborator (id 2) is registered, and
`declared_no_edit_collaborators` holds a different id (1). -/
def quiesceProbe : BufferState :=
  { state :=
      { content := []
        fully_loaded := false
        referenced_file_version := 0
        shutdown := true }
    version := 3
    updating := false
    last_used := 0
    collaborators := {2}
    done_collaborators := ∅
    declared_no_edit_collaborators := {1}
    listeners := []
    last_change := fun _ => 0
    last_response := fun _ => 0
    last_request := fun _ => 0 }

/-- C2 counterexample: the source's `all_edits_complete` compares the SIZES
of the two sets (buffer.cc:158-159), so on a state whose
`declared_no_edit_collaborators` is `{1}` and whose `collaborators` is `{2}`
the gate holds even though the sets are different: the claimed
characterisation by set equality is false for this predicate. -/
theorem c2_counterexample :
    all_edits_complete quiesceProbe = true ∧
    quiesceProbe.state.shutdown = true ∧
    quiesceProbe.declared_no_edit_collaborators ≠ quiesceProbe.collaborators := by
  refine ⟨by decide, rfl, by decide⟩

/-- C2 (amended): `all_edits_complete` holds iff `state.shutdown` is true
and `declared_no_edit_collaborators` has the same CARDINALITY as
`collaborators`; whenever `declared_no_edit_collaborators` is contained in
`collaborators` (as on every reachable buffer state, see
`collabInv_preserved`) this coincides with set equality. -/
theorem c2_all_edits_complete_gate (b : BufferState)
    (hsub : b.declared_no_edit_collaborators ⊆ b.collaborators) :
    (all_edits_complete b = true ↔
      b.state.shutdown = true ∧
        b.declared_no_edit_collaborators.card = b.collaborators.card) ∧
    (all_edits_complete b = true ↔
      b.state.shutdown = true ∧
        b.declared_no_edit_collaborators = b.collaborators) := by
  constructor
  · simp [all_edits_complete, Bool.and_eq_true]
  · simp only [all_edits_complete, Bool.and_eq_true, beq_iff_eq]
    constructor
    · rintro ⟨hs, hcard⟩
      exact ⟨hs, Finset.eq_of_subset_of_card_le hsub (le_of_eq hcard.symm)⟩
    · rintro ⟨hs, heq⟩
      exact ⟨hs, by rw [heq]⟩

theorem c2_all_edits_complete_gate_witness :
    (Buffer.init 0 none).declared_no_edit_collaborators
      ⊆ (Buffer.init 0 none).collaborators ∧
    (all_edits_complete (Buffer.init 0 none) = true ↔
      (Buffer.init 0 none).state.shutdown = true ∧
        (Buffer.init 0 none).declared_no_edit_collaborators
          = (Buffer.init 0 none).collaborators) :=
  ⟨Finset.empty_subset _,
   (c2_all_edits_complete_gate (Buffer.init 0 none)
     (Finset.empty_subset _)).2⟩

/-- C3 counterexample: the push driver thread of the async collaborator
shape (buffer.cc:88-94) has no insertion into `done_collaborators_` after
its try/catch, so when the collaborator's `Push` raises, the driver exits
without the collaborator being recorded: starting from a fresh buffer, the
collaborator is not in `done_collaborators` after the error exit. -/
theorem c3_counterexample :
    (0 : Nat) ∉
      (pushDriverExit (Buffer.init 0 none) 0
        ExitCause.collaboratorError).done_collaborators := by
  decide

/-- C3 (amended): the pull, sync and command-push driver threads record the
collaborator in `done_collaborators` on every exit, terminal or error; the
async push driver records it only on the terminal exit (the insertion
performed by `NextNotification`'s terminal branch before it throws), and its
error exit does not record it. -/
theorem c3_driver_exits_record_done (b : BufferState) (c : Nat)
    (cause : ExitCause) :
    c ∈ (pullDriverExit b c cause).done_collaborators ∧
    c ∈ (syncDriverExit b c cause).done_collaborators ∧
    c ∈ (commandDriverExit b c cause).done_collaborators ∧
    c ∈ (pushDriverExit b c ExitCause.terminal).done_collaborators := by
  refine ⟨?_, ?_, ?_, ?_⟩ <;>
    simp [pullDriverExit, syncDriverExit, commandDriverExit, pushDriverExit,
      notifTerminalBranch]

theorem updateState_version (b : BufferState) (c : Option Nat) (u : Bool)
    (f : EditNotification → EditNotification) (now : Int) :
    (UpdateState b c u f now).1.version = b.version + 1 := by
  simp [UpdateState, updateCommit, updateAcquire, markChange_version]

theorem commitSeq_version (l : List CommitSpec) (b : BufferState) :
    (commitSeq b l).version = b.version + l.length := by
  induction l generalizing b with
  | nil => simp [commitSeq]
  | cons s rest ih =>
    simp [commitSeq, ih, updateState_version]
    omega

theorem commitSeq_append (l₁ l₂ : List CommitSpec) (b : BufferState) :
    commitSeq b (l₁ ++ l₂) = commitSeq (commitSeq b l₁) l₂ := by
  induction l₁ generalizing b with
  | nil => simp [commitSeq]
  | cons s rest ih => simp [commitSeq, ih]

/-- C4 counterexample: `PushChanges` with an empty `CommandSet` (integrating
no commands leaves the snapshot unchanged) increments `version` but commits
a state equal to its predecessor, so "the published state changes if and
only if version changes" fails in the version-to-state direction. -/
theorem c4_counterexample :
    (PushChanges (Buffer.init 0 none) [] 0).1.version
      ≠ (Buffer.init 0 none).version ∧
    (PushChanges (Buffer.init 0 none) [] 0).1.state
      = (Buffer.init 0 none).state := by
  constructor
  · decide
  · decide

/-- C4 (amended): across every sequence of commits the version counter is
strictly increasing (each commit increments it by exactly 1), and `state`
is replaced only at a commit — the no-update path of `SinkResponse`, the
terminal branch of `NextNotification` and the `MarkRequest` bookkeeping all
leave `state` and `version` unchanged; but a commit may install a state
equal to its predecessor (see `c4_counterexample`), so the version may
change without the state value changing. -/
theorem c4_version_monotonic (b : BufferState) (l₁ l₂ : List CommitSpec)
    (c : Nat) (r : EditResponse) (now : Int) :
    (commitSeq b l₁).version = b.version + l₁.length ∧
    (l₂ ≠ [] →
      (commitSeq b l₁).version < (commitSeq b (l₁ ++ l₂)).version) ∧
    (HasUpdates r = false →
      (SinkResponse b c r now).buffer.state = b.state ∧
      (SinkResponse b c r now).buffer.version = b.version) ∧
    (notifTerminalBranch b c).state = b.state ∧
    (notifTerminalBranch b c).version = b.version ∧
    (markRequest b c now).state = b.state ∧
    (markRequest b c now).version = b.version := by
  refine ⟨commitSeq_version l₁ b, ?_, ?_, rfl, rfl, rfl, rfl⟩
  · intro hne
    rw [commitSeq_append, commitSeq_version l₂ (commitSeq b l₁)]
    have : 0 < l₂.length := List.length_pos.mpr hne
    omega
  · intro hu
    cases hd : r.done <;>
      simp [SinkResponse, hu, hd, markResponse]

theorem c4_version_monotonic_witness :
    ([⟨none, false, id, 0⟩] : List CommitSpec) ≠ [] ∧
    HasUpdates ⟨[], true, false, false, false⟩ = false ∧
    (commitSeq (Buffer.init 0 none) []).version
      < (commitSeq (Buffer.init 0 none)
          ([] ++ [⟨none, false, id, 0⟩])).version ∧
    (SinkResponse (Buffer.init 0 none) 0
      ⟨[], true, false, false, false⟩ 3).buffer.version
        = (Buffer.init 0 none).version := by
  refine ⟨List.cons_ne_nil _ _, by decide, ?_, ?_⟩
  · exact (c4_version_monotonic (Buffer.init 0 none) []
      [⟨none, false, id, 0⟩] 0 ⟨[], true, false, false, false⟩ 3).2.1
      (List.cons_ne_nil _ _)
  · exact ((c4_version_monotonic (Buffer.init 0 none) []
      [⟨none, false, id, 0⟩] 0 ⟨[], true, false, false, false⟩ 3).2.2.1
      (by decide)).2

/-- C5: a response with no update (`become_loaded` false,
`referenced_file_changed` false, empty `content_updates`, i.e.
`HasUpdates` false) causes no commit — `state` and `version` are unchanged
and no event is emitted — and instead `last_used` is set to now exactly
when `become_used` is true and the collaborator is inserted directly into
`declared_no_edit_collaborators`; a response with an update publishes its
commands to the registered listeners and commits them via `UpdateState`
(state becomes `IntegrateResponse` of the old state, version increments,
and `declared_no_edit_collaborators` is snapshotted from
`done_collaborators`). -/
theorem c5_sink_response (b : BufferState) (c : Nat) (r : EditResponse)
    (now : Int) :
    (HasUpdates r = false →
      (SinkResponse b c r now).buffer.state = b.state ∧
      (SinkResponse b c r now).buffer.version = b.version ∧
      (SinkResponse b c r now).events = [] ∧
      (SinkResponse b c r now).buffer.last_used
        = (if r.become_used then now else b.last_used) ∧
      c ∈ (SinkResponse b c r now).buffer.declared_no_edit_collaborators) ∧
    (HasUpdates r = true →
      (SinkResponse b c r now).events
        = [BufEvent.publish r.content_updates b.listeners,
           BufEvent.commit (b.version + 1) (IntegrateResponse r b.state)] ∧
      (SinkResponse b c r now).buffer.state = IntegrateResponse r b.state ∧
      (SinkResponse b c r now).buffer.version = b.version + 1 ∧
      (SinkResponse b c r now).buffer.declared_no_edit_collaborators
        = b.done_collaborators) := by
  constructor
  · intro hu
    cases hd : r.done <;>
      simp [SinkResponse, hu, hd, markResponse]
  · intro hu
    cases hd : r.done <;>
      simp [SinkResponse, hu, hd, markResponse, UpdateState, updateCommit,
        updateAcquire, markChange]

theorem c5_sink_response_witness :
    HasUpdates ⟨[], true, false, false, false⟩ = false ∧
    HasUpdates ⟨[5], false, false, false, false⟩ = true ∧
    (SinkResponse (Buffer.init 0 none) 0
      ⟨[], true, false, false, false⟩ 9).buffer.last_used = 9 ∧
    (SinkResponse (Buffer.init 0 none) 0
      ⟨[5], false, false, false, false⟩ 9).buffer.version
        = (Buffer.init 0 none).version + 1 := by
  refine ⟨by decide, by decide, ?_, ?_⟩
  · have h := ((c5_sink_response (Buffer.init 0 none) 0
      ⟨[], true, false, false, false⟩ 9).1 (by decide)).2.2.2.1
    simpa using h
  · exact ((c5_sink_response (Buffer.init 0 none) 0
      ⟨[5], false, false, false, false⟩ 9).2 (by decide)).2.2.1

/-- C6: `SinkResponse` raises the terminal condition exactly when
`response.done` is true; when it does, the collaborator is in
`done_collaborators` of the state at the raise; for a response with `done`
false it returns normally and leaves `done_collaborators` untouched. -/
theorem c6_sink_response_terminal (b : BufferState) (c : Nat)
    (r : EditResponse) (now : Int) :
    ((SinkResponse b c r now).raised = true ↔ r.done = true) ∧
    (r.done = true →
      c ∈ (SinkResponse b c r now).buffer.done_collaborators) ∧
    (r.done = false →
      (SinkResponse b c r now).raised = false ∧
      (SinkResponse b c r now).buffer.done_collaborators
        = b.done_collaborators) := by
  cases hd : r.done <;> cases hu : HasUpdates r <;>
    simp [SinkResponse, hd, hu, markResponse, UpdateState, updateCommit,
      updateAcquire, markChange_done]

theorem c6_sink_response_terminal_witness :
    ((SinkResponse (Buffer.init 0 none) 4
      ⟨[], false, false, false, true⟩ 0).raised = true ↔
        (⟨[], false, false, false, true⟩ : EditResponse).done = true) ∧
    4 ∈ (SinkResponse (Buffer.init 0 none) 4
      ⟨[], false, false, false, true⟩ 0).buffer.done_collaborators :=
  ⟨(c6_sink_response_terminal (Buffer.init 0 none) 4
      ⟨[], false, false, false, true⟩ 0).1,
   (c6_sink_response_terminal (Buffer.init 0 none) 4
      ⟨[], false, false, false, true⟩ 0).2.1 rfl⟩

theorem debounceLoop_notified_delays (d_i d_s fsc : Int) :
    ∀ (events : List DebounceEvent) (time lu t : Int) (b2 : BufferState),
      debounceLoop d_i d_s fsc time lu events = DebounceOutcome.notified t b2 →
      d_i ≤ t - b2.last_used ∧ d_s ≤ t - fsc := by
  intro events
  induction events with
  | nil =>
    intro time lu t b2 h
    simp [debounceLoop] at h
  | cons e rest ih =>
    intro time lu t b2 h
    simp only [debounceLoop] at h
    by_cases hs : e.after.state.shutdown
    · simp [hs] at h
    · simp only [hs, if_false, Bool.false_eq_true] at h
      by_cases hl : e.after.last_used ≠ lu
      · rw [if_pos hl] at h
        exact ih _ _ _ _ h
      · rw [if_neg hl] at h
        cases h
        push_neg at hl
        rw [hl]
        have h1 : d_i - (time - lu)
            ≤ debounceWait d_i d_s (time - lu) (time - fsc) :=
          le_trans (le_max_left _ _) (le_max_left _ _)
        have h2 : d_s - (time - fsc)
            ≤ debounceWait d_i d_s (time - lu) (time - fsc) :=
          le_trans (le_max_right _ _) (le_max_left _ _)
        omega

theorem debounceLoop_break_shutdown (d_i d_s fsc : Int) :
    ∀ (events : List DebounceEvent) (time lu t : Int) (b2 : BufferState),
      debounceLoop d_i d_s fsc time lu events
        = DebounceOutcome.shutdownBreak t b2 →
      b2.state.shutdown = true := by
  intro events
  induction events with
  | nil =>
    intro time lu t b2 h
    simp [debounceLoop] at h
  | cons e rest ih =>
    intro time lu t b2 h
    simp only [debounceLoop] at h
    by_cases hs : e.after.state.shutdown
    · rw [if_pos hs] at h
      cases h
      exact hs
    · simp only [hs, if_false, Bool.false_eq_true] at h
      by_cases hl : e.after.last_used ≠ lu
      · rw [if_pos hl] at h
        exact ih _ _ _ _ h
      · rw [if_neg hl] at h
        cases h

/-- C7: the debounce of `NextNotification`.  Once a new version is observed
(`version != last_processed`), a notification produced by a normal exit of
the debounce loop is returned only at a time `t` at which both
`t - last_used >= push_delay_from_idle` and
`t - first_saw_change >= push_delay_from_start` hold simultaneously; the
loop breaks out early only when `state.shutdown` became true during a wait;
an iteration whose wait saw `last_used` change restarts the timing from the
new `last_used`; and the debounce is skipped entirely — the notification
returned immediately at time now — when `state.shutdown` already holds at
entry or when `last_processed` is 0. -/
theorem c7_debounce (b : BufferState) (c : Nat) (lp : Nat)
    (now d_i d_s fsc time lu t : Int) (events : List DebounceEvent)
    (b2 : BufferState) :
    (debounceLoop d_i d_s fsc time lu events
        = DebounceOutcome.notified t b2 →
      d_i ≤ t - b2.last_used ∧ d_s ≤ t - fsc) ∧
    (debounceLoop d_i d_s fsc time lu events
        = DebounceOutcome.shutdownBreak t b2 →
      b2.state.shutdown = true) ∧
    (∀ (e : DebounceEvent) (rest : List DebounceEvent),
      e.after.state.shutdown = false → e.after.last_used ≠ lu →
      debounceLoop d_i d_s fsc time lu (e :: rest)
        = debounceLoop d_i d_s fsc
            (time + debounceWait d_i d_s (time - lu) (time - fsc))
            e.after.last_used rest) ∧
    (b.version ≠ lp → b.state.shutdown = true →
      NextNotification b c lp now d_i d_s events = notifReturn b c now) ∧
    (b.version ≠ 0 →
      NextNotification b c 0 now d_i d_s events = notifReturn b c now) ∧
    (b.version ≠ lp → b.state.shutdown = false → lp ≠ 0 →
      debounceLoop d_i d_s now now b.last_used events
        = DebounceOutcome.notified t b2 →
      NextNotification b c lp now d_i d_s events = notifReturn b2 c t ∧
      d_i ≤ t - b2.last_used ∧ d_s ≤ t - now) := by
  refine ⟨debounceLoop_notified_delays d_i d_s fsc events time lu t b2,
    debounceLoop_break_shutdown d_i d_s fsc events time lu t b2,
    ?_, ?_, ?_, ?_⟩
  · intro e rest hs hl
    simp only [debounceLoop]
    rw [if_neg (by simp [hs]), if_pos hl]
  · intro h1 h2
    simp [NextNotification, h1, h2]
  · intro h1
    by_cases h2 : b.state.shutdown = true <;>
      simp [NextNotification, h1, h2]
  · intro h1 h2 h3 h4
    refine ⟨?_, debounceLoop_notified_delays d_i d_s now events now
      b.last_used t b2 h4⟩
    simp [NextNotification, h1, h2, h3, h4]

theorem c7_debounce_witness :
    ((UpdateState (Buffer.init 0 none) none false id 0).1.version ≠ 2) ∧
    ((UpdateState (Buffer.init 0 none) none false id 0).1.state.shutdown
      = false) ∧
    ((2 : Nat) ≠ 0) ∧
    (NextNotification (UpdateState (Buffer.init 0 none) none false id 0).1
        0 2 0 5 3 [⟨0, Buffer.init 0 none⟩]
      = notifReturn (Buffer.init 0 none) 0 3 ∧
      (5 : Int) ≤ 3 - (Buffer.init 0 none).last_used ∧
      (3 : Int) ≤ 3 - 0) := by
  refine ⟨by decide, by decide, by decide, ?_⟩
  exact (c7_debounce (UpdateState (Buffer.init 0 none) none false id 0).1
    0 2 0 5 3 0 0 0 3 [⟨0, Buffer.init 0 none⟩]
    (Buffer.init 0 none)).2.2.2.2.2 (by decide) (by decide) (by decide) rfl

/-- C8: in `PushChanges` and in the update path of `SinkResponse`, the trace
of events is exactly a `publish` of the commands to the listeners registered
at that moment, followed by the `commit` that integrates those same commands
into the state: every listener receives the `CommandSet` strictly before the
corresponding state change becomes visible. -/
theorem c8_publish_before_commit (b : BufferState) (commands : List Nat)
    (now : Int) (c : Nat) (r : EditResponse) (hr : HasUpdates r = true) :
    (PushChanges b commands now).2
      = [BufEvent.publish commands b.listeners,
         BufEvent.commit (b.version + 1)
           { b.state with content := Integrate b.state.content commands }] ∧
    (SinkResponse b c r now).events
      = [BufEvent.publish r.content_updates b.listeners,
         BufEvent.commit (b.version + 1) (IntegrateResponse r b.state)] := by
  constructor
  · simp [PushChanges, UpdateState, updateCommit, updateAcquire,
      markChange_version]
  · cases hd : r.done <;>
      simp [SinkResponse, hr, hd, markResponse, UpdateState, updateCommit,
        updateAcquire, markChange]

theorem c8_publish_before_commit_witness :
    HasUpdates ⟨[5], false, false, false, false⟩ = true ∧
    (SinkResponse (Buffer.init 0 none) 1
        ⟨[5], false, false, false, false⟩ 2).events
      = [BufEvent.publish [5] [],
         BufEvent.commit 1
           (IntegrateResponse ⟨[5], false, false, false, false⟩
             (Buffer.init 0 none).state)] := by
  refine ⟨by decide, ?_⟩
  have h := (c8_publish_before_commit (Buffer.init 0 none) [] 2 1
    ⟨[5], false, false, false, false⟩ (by decide)).2
  simpa using h

/-- C9: once `state.shutdown` is true it stays true: each of the four core
mutators (`IntegrateResponse` from `SinkResponse`, the `PushChanges`
integrate closure, the command-push driver's integrate closure, and the
destructor's shutdown closure) preserves `shutdown = true`; committing any
of them through `UpdateState` preserves it on the published state; both
paths of `SinkResponse` preserve it; and the destructor's commit always
leaves it true. -/
theorem c9_shutdown_monotonic (m : CoreMutator) (s : EditNotification)
    (b : BufferState) (c : Option Nat) (u : Bool) (now : Int) (cN : Nat)
    (r : EditResponse) (hs : s.shutdown = true)
    (hb : b.state.shutdown = true) :
    (CoreMutator.apply m s).shutdown = true ∧
    (UpdateState b c u (CoreMutator.apply m) now).1.state.shutdown = true ∧
    (SinkResponse b cN r now).buffer.state.shutdown = true ∧
    (Buffer.destroyCommit b now).1.state.shutdown = true := by
  have key : ∀ s' : EditNotification, s'.shutdown = true →
      (CoreMutator.apply m s').shutdown = true := by
    intro s' h
    cases m <;> simp [CoreMutator.apply, IntegrateResponse, h]
  refine ⟨key s hs, ?_, ?_, rfl⟩
  · have hst : (UpdateState b c u (CoreMutator.apply m) now).1.state
        = CoreMutator.apply m b.state := rfl
    rw [hst]
    exact key b.state hb
  · cases hd : r.done <;> cases hu : HasUpdates r <;>
      simp [SinkResponse, hd, hu, markResponse, UpdateState, updateCommit,
        updateAcquire, markChange, IntegrateResponse, hb]

theorem c9_shutdown_monotonic_witness :
    ((⟨[], false, 0, true⟩ : EditNotification).shutdown = true) ∧
    ((Buffer.destroyCommit (Buffer.init 0 none) 0).1.state.shutdown
      = true) ∧
    (CoreMutator.apply (CoreMutator.pushCommands [1])
      ⟨[], false, 0, true⟩).shutdown = true := by
  refine ⟨rfl, by decide, ?_⟩
  exact (c9_shutdown_monotonic (CoreMutator.pushCommands [1])
    ⟨[], false, 0, true⟩ (Buffer.destroyCommit (Buffer.init 0 none) 0).1
    none false 0 0 ⟨[], false, false, false, false⟩ rfl (by decide)).1

/-- C10: the constructor initialises `last_used` to now minus 1,000,000
seconds (buffer.cc:49), so on a fresh buffer the idle term of the debounce
timeout is already nonpositive for any `push_delay_from_idle` of at most
1,000,000 seconds, and the timeout reduces to the from-start term alone:
until the first `become_used` activity only `push_delay_from_start` can
delay a notification. -/
theorem c10_fresh_buffer_idle (now t d_i d_s tfc : Int)
    (initial : Option (List Nat)) (h1 : d_i ≤ 1000000) (h2 : now ≤ t) :
    (Buffer.init now initial).last_used = now - 1000000 ∧
    d_i - (t - (Buffer.init now initial).last_used) ≤ 0 ∧
    debounceWait d_i d_s (t - (Buffer.init now initial).last_used) tfc
      = max (d_s - tfc) 0 := by
  have hlu : (Buffer.init now initial).last_used = now - 1000000 := rfl
  have hA : d_i - (t - (now - 1000000)) ≤ 0 := by omega
  refine ⟨hlu, by rw [hlu]; exact hA, ?_⟩
  rw [hlu]
  simp only [debounceWait]
  rw [max_assoc]
  exact max_eq_right (le_trans hA (le_max_right _ _))

theorem c10_fresh_buffer_idle_witness :
    ((50 : Int) ≤ 1000000) ∧ ((0 : Int) ≤ 0) ∧
    (Buffer.init 0 none).last_used = 0 - 1000000 ∧
    debounceWait 50 7 (0 - (Buffer.init 0 none).last_used) 2
      = max (7 - 2) 0 := by
  refine ⟨by decide, le_refl 0, ?_, ?_⟩
  · exact (c10_fresh_buffer_idle 0 0 50 7 2 none (by decide) (le_refl 0)).1
  · exact (c10_fresh_buffer_idle 0 0 50 7 2 none (by decide) (le_refl 0)).2.2

theorem collabInv_preserved (b : BufferState) (c : Option Nat) (u : Bool)
    (f : EditNotification → EditNotification) (now : Int) (cN : Nat)
    (r : EditResponse) (h : collabInv b) (hc : cN ∈ b.collaborators) :
    collabInv (UpdateState b c u f now).1 ∧
    collabInv (SinkResponse b cN r now).buffer ∧
    collabInv (notifTerminalBranch b cN) ∧
    collabInv (AddCollaborator b cN) ∧
    collabInv (Buffer.init now none) := by
  obtain ⟨h1, h2⟩ := h
  refine ⟨?_, ?_, ?_, ?_, ?_⟩
  · constructor <;>
      simp [UpdateState, updateCommit, updateAcquire, markChange_done,
        markChange_collaborators, h1]
  · cases hd : r.done <;> cases hu : HasUpdates r <;>
      simp [SinkResponse, hd, hu, markResponse, UpdateState, updateCommit,
        updateAcquire, markChange, collabInv, Finset.insert_subset_iff, hc,
        h1, h2]
  · exact ⟨Finset.insert_subset hc h1, h2⟩
  · exact ⟨h1.trans (Finset.subset_insert _ _),
      h2.trans (Finset.subset_insert _ _)⟩
  · exact ⟨Finset.empty_subset _, Finset.empty_subset _⟩
